import Mathlib

/-!
Verification of the heuristic scoring and domain-list resolution engine of the
fountain-scan browser extension (src/background.js).

JavaScript strings are modelled as `List Char` (`Str`).  The JS string methods
used by the source (`startsWith`, `endsWith`, `includes`, `toLowerCase`,
`substring`, `+`) are modelled by the `js*` functions below.  Each definition
carries a note pointing at the source lines it embeds.
-/

/-- JavaScript strings, modelled as lists of characters. -/
abbrev Str := List Char

/-- Model of JS `String.prototype.toLowerCase` (per-character lowering). -/
def jsToLower (s : Str) : Str := s.map Char.toLower

/-- Model of JS `s.startsWith(p)`. -/
def jsStartsWith (s p : Str) : Bool := decide (p <+: s)

/-- Model of JS `s.endsWith(p)`. -/
def jsEndsWith (s p : Str) : Bool := decide (p <:+ s)

/-- Model of JS `h.includes(n)`: `n` occurs as a contiguous substring of `h`. -/
def jsIncludes (h n : Str) : Bool := decide (n <:+: h)

/-- Pack a character list back into a Lean string (for issue messages built
with JS template interpolation). -/
def ofChars (cs : Str) : String := String.mk cs

/-- Model of JS `list.join(', ')` used for issue messages. -/
def joinComma (l : List Str) : String := ofChars (List.intercalate (", ".toList) l)

/-- background.js lines 9-16: the weighted rule catalogue `RULE_WEIGHTS`. -/
structure RuleWeights where
  https : Nat
  domainAge : Nat
  blacklistHit : Nat
  keyword : Nat
  suspiciousTld : Nat
  urlShortener : Nat
deriving DecidableEq

/-- background.js lines 9-16. -/
def RULE_WEIGHTS : RuleWeights :=
  { https := 10, domainAge := 15, blacklistHit := 70, keyword := 10,
    suspiciousTld := 15, urlShortener := 10 }

/-- background.js lines 19-24: `NIGERIAN_SCAM_PATTERNS`, an object whose
entries are iterated in insertion order by `Object.entries`. -/
def NIGERIAN_SCAM_PATTERNS : List (String × List Str) :=
  [ ("scholarship",
      [ "free-scholarship".toList, "guaranteed-scholarship".toList,
        "instant-scholarship".toList, "scholarship-winner".toList ]),
    ("financial",
      [ "instant-money".toList, "guaranteed-loan".toList, "easy-cash".toList,
        "quick-loan".toList, "nin".toList, "bvn".toList ]),
    ("government",
      [ "npower".toList, "jamb-result".toList, "waec-result".toList,
        "inec-recruitment".toList, "nnpc-recruitment".toList ]),
    ("urgency",
      [ "urgent".toList, "limited-time".toList, "expires-soon".toList,
        "act-now".toList, "deadline-today".toList ]) ]

/-- background.js lines 26-31: `SUSPICIOUS_PATTERNS`. -/
def SUSPICIOUS_PATTERNS : List Str :=
  [ "verify-account".toList, "update-information".toList, "confirm-identity".toList,
    "security-alert".toList, "account-suspended".toList, "click-here-now".toList,
    "work-from-home".toList, "get-rich-quick".toList, "Bank-Verification-Number".toList,
    "payment-verification".toList ]

/-- background.js line 33: `SUSPICIOUS_TLDS`. -/
def SUSPICIOUS_TLDS : List Str :=
  [ ".tk".toList, ".ml".toList, ".ga".toList, ".cf".toList, ".pw".toList,
    ".top".toList, ".click".toList ]

/-- background.js line 34: `URL_SHORTENERS`. -/
def URL_SHORTENERS : List Str :=
  [ "bit.ly".toList, "tinyurl.com".toList, "goo.gl".toList, "t.co".toList,
    "short.link".toList ]

/-- background.js lines 55-57: `cleanDomain`.  The JS regex
`^(https?:\/\/)?(www\.)?` performs a single anchored replacement: it drops a
literal `https://` or `http://` scheme when present, then a literal `www.`
when present, and the result is lowercased afterwards.  (The regex is
case-sensitive, so an upper-case `WWW.` or `HTTP://` is not stripped.) -/
def cleanDomain (domain : Str) : Str :=
  let s1 := if jsStartsWith domain ("https://".toList) then domain.drop 8
            else if jsStartsWith domain ("http://".toList) then domain.drop 7
            else domain
  let s2 := if jsStartsWith s1 ("www.".toList) then s1.drop 4 else s1
  jsToLower s2

/-- background.js lines 59-76: `domainMatches`.  Exact match, then subdomain
match, then wildcard support for list entries of the form `*.base`. -/
def domainMatches (currentDomain listDomain : Str) : Bool :=
  let cleanCurrent := cleanDomain currentDomain
  let cleanList := cleanDomain listDomain
  if cleanCurrent == cleanList then true
  else if jsEndsWith cleanCurrent ('.' :: cleanList) then true
  else if jsStartsWith cleanList ("*.".toList) then
    let baseDomain := cleanList.drop 2
    jsEndsWith cleanCurrent ('.' :: baseDomain) || cleanCurrent == baseDomain
  else false

/-- The three classification statuses of a scan. -/
inductive Status where
  | safe
  | warning
  | danger
deriving DecidableEq

/-- The result record returned by `calculateHeuristicScore`
(background.js lines 173 and 212). -/
structure ScanResult where
  score : Nat
  status : Status
  issues : List String
deriving DecidableEq

/-- The mutable pair `(score, detectedIssues)` threaded through the checks of
`calculateHeuristicScore` (background.js lines 142-143). -/
structure ScanState where
  score : Nat
  issues : List String
deriving DecidableEq

/-- background.js lines 142-143: `score = 0`, `detectedIssues = []`. -/
def initialScanState : ScanState := { score := 0, issues := [] }

/-- background.js lines 207-211: the fixed-threshold classifier mapping a
score to a status. -/
def statusOf (score : Nat) : Status :=
  if score ≥ 70 then Status.danger
  else if score ≥ 40 then Status.warning
  else Status.safe

/-- background.js lines 207-212: classify the accumulated state and build the
returned `ScanResult`. -/
def finishScan (st : ScanState) : ScanResult :=
  { score := st.score, status := statusOf st.score, issues := st.issues }

/-- background.js lines 146-150: the HTTPS check. -/
def httpsCheck (url : Str) (st : ScanState) : ScanState :=
  if !(jsStartsWith url ("https://".toList)) then
    { score := st.score + RULE_WEIGHTS.https,
      issues := st.issues ++ ["No HTTPS encryption"] }
  else st

/-- background.js lines 152-157: the suspicious-TLD check (`find` returns the
first matching TLD only). -/
def tldCheck (domain : Str) (st : ScanState) : ScanState :=
  match SUSPICIOUS_TLDS.find? (fun tld => jsEndsWith domain tld) with
  | some tld =>
      { score := st.score + RULE_WEIGHTS.suspiciousTld,
        issues := st.issues ++ ["Suspicious domain extension: " ++ ofChars tld] }
  | none => st

/-- background.js lines 159-163: the URL-shortener check. -/
def shortenerCheck (domain : Str) (st : ScanState) : ScanState :=
  if URL_SHORTENERS.any (fun shortener => jsIncludes domain shortener) then
    { score := st.score + RULE_WEIGHTS.urlShortener,
      issues := st.issues ++ ["URL shortener detected"] }
  else st

/-- background.js lines 165-169: the blacklist check. -/
def blacklistCheck (domain : Str) (blacklist : List Str) (st : ScanState) : ScanState :=
  if blacklist.any (fun d => domainMatches domain d) then
    { score := st.score + RULE_WEIGHTS.blacklistHit,
      issues := st.issues ++ ["Domain is blacklisted"] }
  else st

/-- background.js lines 146-169: the four checks preceding the whitelist
test, in source order. -/
def baseChecks (url domain : Str) (blacklist : List Str) : ScanState :=
  blacklistCheck domain blacklist
    (shortenerCheck domain (tldCheck domain (httpsCheck url initialScanState)))

/-- The keyword predicate of background.js lines 181-183 and 193-195:
a keyword fires when it occurs in the lowercased content or lowercased URL. -/
def kwPred (lowerContent lowerUrl : Str) (keyword : Str) : Bool :=
  jsIncludes lowerContent keyword || jsIncludes lowerUrl keyword

/-- background.js lines 180-190: one iteration of the
`Object.entries(NIGERIAN_SCAM_PATTERNS).forEach` loop. -/
def categoryStep (lowerContent lowerUrl : Str) (st : ScanState)
    (entry : String × List Str) : ScanState :=
  let foundKeywords := entry.2.filter (kwPred lowerContent lowerUrl)
  if foundKeywords.length > 0 then
    { score := st.score + foundKeywords.length * RULE_WEIGHTS.keyword,
      issues := st.issues ++ [entry.1 ++ " scam indicators: " ++ joinComma foundKeywords] }
  else st

/-- background.js lines 176-200: keyword-category detection followed by the
generic suspicious-pattern check (flat weight 3 per match). -/
def keywordChecks (url content : Str) (st : ScanState) : ScanState :=
  let lowerContent := jsToLower content
  let lowerUrl := jsToLower url
  let st1 := NIGERIAN_SCAM_PATTERNS.foldl (categoryStep lowerContent lowerUrl) st
  let foundSuspicious := SUSPICIOUS_PATTERNS.filter (kwPred lowerContent lowerUrl)
  if foundSuspicious.length > 0 then
    { score := st1.score + foundSuspicious.length * 3,
      issues := st1.issues ++ ["Phishing indicators: " ++ joinComma foundSuspicious] }
  else st1

/-- background.js line 173: the result of the whitelist short-circuit. -/
def whitelistResult : ScanResult :=
  { score := 0, status := Status.safe, issues := ["Domain is whitelisted"] }

/-- background.js lines 141-213: `calculateHeuristicScore`.  The source runs
the four base checks, then the whitelist test (early return, line 172-174),
then the keyword checks, then classifies.  The base checks are pure, so the
early return is modelled by deciding the whitelist test first and running the
accumulation only on the other branch; the evaluation order of the checks is
kept inside `baseChecks`/`keywordChecks`. -/
def calculateHeuristicScore (url content domain : Str)
    (whitelist blacklist : List Str) : ScanResult :=
  if whitelist.any (fun d => domainMatches domain d) then whitelistResult
  else finishScan (keywordChecks url content (baseChecks url domain blacklist))

/-- Every keyword that can contribute to the score: the four category keyword
lists (background.js lines 19-24) followed by the generic suspicious
patterns (lines 26-31). -/
def allScanKeywords : List Str :=
  NIGERIAN_SCAM_PATTERNS.flatMap (fun e => e.2) ++ SUSPICIOUS_PATTERNS

/-!
Control-flow skeleton of `calculateHeuristicScore` (background.js lines
141-213).  The body of the `try` block is a sequence of analysis steps, each
of which may update the accumulated state, return early (the whitelist
short-circuit, line 173), or throw.  A JS throw aborts the remaining steps
but keeps the updates already applied to `score`/`detectedIssues`, which are
declared outside the `try`; the `catch` (lines 202-205) appends the issue
"Error during analysis" and classification (lines 207-212) still runs.
-/

/-- Outcome of one analysis step inside the `try` block: normal completion,
early `return`, or a thrown exception (carrying the state at the moment of
the throw, since the accumulator lives outside the `try`). -/
inductive StepOut where
  | ok : ScanState → StepOut
  | ret : ScanResult → StepOut
  | err : ScanState → StepOut
deriving DecidableEq

/-- One analysis step of the `try` block. -/
def Step := ScanState → StepOut

/-- Run the steps of the `try` block in order; an early return or a throw
stops the remaining steps (background.js lines 145-205). -/
def runTry : List Step → ScanState → StepOut
  | [], st => StepOut.ok st
  | s :: rest, st =>
    match s st with
    | StepOut.ok st' => runTry rest st'
    | StepOut.ret r => StepOut.ret r
    | StepOut.err st' => StepOut.err st'

/-- background.js lines 141-213: run the `try` block, handle the `catch`
(append "Error during analysis", line 204), and classify whatever score was
accumulated (lines 207-212).  An early `return` skips classification. -/
def runScanBody (steps : List Step) : ScanResult :=
  match runTry steps initialScanState with
  | StepOut.ok st => finishScan st
  | StepOut.ret r => r
  | StepOut.err st =>
      finishScan { score := st.score, issues := st.issues ++ ["Error during analysis"] }

/-- background.js lines 171-174: the whitelist test as a step; on a match the
function returns early with `whitelistResult`. -/
def whitelistStep (domain : Str) (whitelist : List Str) : Step := fun st =>
  if whitelist.any (fun d => domainMatches domain d) then StepOut.ret whitelistResult
  else StepOut.ok st

/-- The analysis steps of background.js lines 146-200 in source order; every
step is total (on the `Str` model the string operations cannot throw). -/
def scanSteps (url content domain : Str) (whitelist blacklist : List Str) : List Step :=
  [ fun st => StepOut.ok (httpsCheck url st),
    fun st => StepOut.ok (tldCheck domain st),
    fun st => StepOut.ok (shortenerCheck domain st),
    fun st => StepOut.ok (blacklistCheck domain blacklist st),
    whitelistStep domain whitelist,
    fun st => StepOut.ok (keywordChecks url content st) ]

/-- The direct definition of `calculateHeuristicScore` agrees with running
its control-flow skeleton on the concrete steps of the source. -/
theorem calculateHeuristicScore_eq_runScanBody (url content domain : Str)
    (whitelist blacklist : List Str) :
    calculateHeuristicScore url content domain whitelist blacklist =
      runScanBody (scanSteps url content domain whitelist blacklist) := by
  unfold calculateHeuristicScore runScanBody scanSteps runTry whitelistStep baseChecks
  by_cases h : whitelist.any (fun d => domainMatches domain d) <;> simp [h, runTry]

/-!
The blocking-rule compiler (background.js lines 313-394, `updateBlockingRules`).
Only the rule construction is modelled; the calls into
`chrome.declarativeNetRequest` (remove-all, then add) are host I/O.
-/

/-- One dynamic blocking rule as built in background.js lines 350-381. -/
structure BlockRule where
  id : Nat
  priority : Nat
  redirectPath : Str
  urlFilter : Str
  resourceTypes : List String
deriving DecidableEq

/-- Hexadecimal digit characters used by percent-encoding (upper case, as
produced by JS `encodeURIComponent`). -/
def hexDigitChar (n : Nat) : Char :=
  if n < 10 then Char.ofNat (48 + n) else Char.ofNat (55 + n)

/-- The characters `encodeURIComponent` leaves unescaped:
`A-Z a-z 0-9 - _ . ! ~ * ' ( )`. -/
def isUnreservedURIChar (c : Char) : Bool :=
  ('A' ≤ c && c ≤ 'Z') || ('a' ≤ c && c ≤ 'z') || ('0' ≤ c && c ≤ '9') ||
  c == '-' || c == '_' || c == '.' || c == '!' || c == '~' || c == '*' ||
  c == Char.ofNat 39 || c == '(' || c == ')'

/-- UTF-8 bytes of a character, for percent-encoding. -/
def utf8Bytes (c : Char) : List Nat :=
  let n := c.toNat
  if n < 128 then [n]
  else if n < 2048 then [192 + n / 64, 128 + n % 64]
  else if n < 65536 then [224 + n / 4096, 128 + (n / 64) % 64, 128 + n % 64]
  else [240 + n / 262144, 128 + (n / 4096) % 64, 128 + (n / 64) % 64, 128 + n % 64]

/-- Model of JS `encodeURIComponent`. -/
def encodeURIComponent (s : Str) : Str :=
  s.flatMap (fun c =>
    if isUnreservedURIChar c then [c]
    else (utf8Bytes c).flatMap
      (fun b => ['%', hexDigitChar (b / 16), hexDigitChar (b % 16)]))

/-- background.js lines 335-382: the rules emitted for the blacklist entry at
a given index.  An entry matched by a whitelist entry is skipped; otherwise a
main rule with id `index + 1` is emitted, plus a `www.` variant with id
`index + 1000` unless the cleaned entry is a wildcard. -/
def entryRules (domain : Str) (index : Nat) (whitelist : List Str) : List BlockRule :=
  if whitelist.any (fun d => domainMatches domain d) then []
  else
    let cleanedDomain := cleanDomain domain
    let redirectPath := ("/blocked.html?url=".toList) ++ encodeURIComponent domain
    if jsStartsWith cleanedDomain ("*.".toList) then
      [ { id := index + 1, priority := 1, redirectPath := redirectPath,
          urlFilter := ("*://*.".toList) ++ cleanedDomain.drop 2 ++ ("/*".toList),
          resourceTypes := ["main_frame"] } ]
    else
      [ { id := index + 1, priority := 1, redirectPath := redirectPath,
          urlFilter := ("*://".toList) ++ cleanedDomain ++ ("/*".toList),
          resourceTypes := ["main_frame"] },
        { id := index + 1000, priority := 1, redirectPath := redirectPath,
          urlFilter := ("*://www.".toList) ++ cleanedDomain ++ ("/*".toList),
          resourceTypes := ["main_frame"] } ]

/-- background.js lines 333-382: the `blacklist.forEach((domain, index) => ...)`
loop accumulating `newRules`. -/
def compileRulesFrom : List Str → List Str → Nat → List BlockRule
  | [], _, _ => []
  | domain :: rest, whitelist, index =>
    entryRules domain index whitelist ++ compileRulesFrom rest whitelist (index + 1)

/-- background.js lines 313-394: the pure part of `updateBlockingRules` — the
full list of rules added after the remove-all, given the `blockingEnabled`
setting and the two lists (line 331 guards on the setting and on an empty
blacklist). -/
def updateBlockingRules (blockingEnabled : Bool) (blacklist whitelist : List Str) :
    List BlockRule :=
  if !blockingEnabled || blacklist.isEmpty then []
  else compileRulesFrom blacklist whitelist 0

/-!
Helper lemmas shared by the claim theorems.
-/

/-- A `ScanResult` whose status agrees with its own score under the fixed
thresholds of background.js lines 207-211. -/
abbrev statusMatchesScore (r : ScanResult) : Prop :=
  (r.status = Status.danger ↔ 70 ≤ r.score) ∧
  (r.status = Status.warning ↔ 40 ≤ r.score ∧ r.score < 70) ∧
  (r.status = Status.safe ↔ r.score < 40)

theorem statusMatchesScore_finishScan (st : ScanState) :
    statusMatchesScore (finishScan st) := by
  unfold finishScan statusOf
  refine ⟨?_, ?_, ?_⟩ <;> dsimp only <;> split_ifs <;> simp <;> omega

theorem categoryStep_score (lowerContent lowerUrl : Str) (st : ScanState)
    (entry : String × List Str) :
    (categoryStep lowerContent lowerUrl st entry).score =
      st.score +
        (entry.2.filter (kwPred lowerContent lowerUrl)).length * RULE_WEIGHTS.keyword := by
  unfold categoryStep
  dsimp only
  split_ifs with h
  · rfl
  · simp only [Nat.not_lt, Nat.le_zero] at h
    simp [h]

theorem foldl_categoryStep_score (lowerContent lowerUrl : Str) :
    ∀ (cats : List (String × List Str)) (st : ScanState),
      (cats.foldl (categoryStep lowerContent lowerUrl) st).score =
        st.score +
          (cats.map (fun e =>
            (e.2.filter (kwPred lowerContent lowerUrl)).length * RULE_WEIGHTS.keyword)).sum
  | [], st => by simp
  | e :: rest, st => by
    rw [List.foldl_cons, foldl_categoryStep_score lowerContent lowerUrl rest,
      categoryStep_score, List.map_cons, List.sum_cons]
    omega

theorem keywordChecks_score (url content : Str) (st : ScanState) :
    (keywordChecks url content st).score =
      st.score +
        (NIGERIAN_SCAM_PATTERNS.map (fun e =>
          (e.2.filter (kwPred (jsToLower content) (jsToLower url))).length *
            RULE_WEIGHTS.keyword)).sum +
        (SUSPICIOUS_PATTERNS.filter (kwPred (jsToLower content) (jsToLower url))).length * 3 := by
  unfold keywordChecks
  dsimp only
  split_ifs with h
  · dsimp only
    rw [foldl_categoryStep_score]
  · simp only [Nat.not_lt, Nat.le_zero] at h
    rw [foldl_categoryStep_score, h]
    omega

theorem runTry_append (l₁ l₂ : List Step) (st : ScanState) :
    runTry (l₁ ++ l₂) st =
      match runTry l₁ st with
      | StepOut.ok st' => runTry l₂ st'
      | StepOut.ret r => StepOut.ret r
      | StepOut.err st' => StepOut.err st' := by
  induction l₁ generalizing st with
  | nil => simp [runTry]
  | cons s rest ih =>
    rw [List.cons_append]
    cases hs : s st with
    | ok st' =>
      simp only [runTry, hs]
      exact ih st'
    | ret r => simp only [runTry, hs]
    | err st' => simp only [runTry, hs]

/-!
Claim theorems.
-/

/-- C1: for every `ScanInput` whose domain matches at least one whitelist
entry per `domainMatches`, `calculateHeuristicScore` returns score 0, status
"safe", and issues `["Domain is whitelisted"]`, regardless of blacklist
membership, HTTPS, TLD, shortener, or keyword signals. -/
theorem claim_C1_whitelist_short_circuit (url content domain : Str)
    (whitelist blacklist : List Str)
    (h : whitelist.any (fun d => domainMatches domain d) = true) :
    calculateHeuristicScore url content domain whitelist blacklist =
      { score := 0, status := Status.safe, issues := ["Domain is whitelisted"] } := by
  simp [calculateHeuristicScore, h, whitelistResult]

/-- Witness for C1: a whitelisted domain that is simultaneously blacklisted,
served over plain HTTP with scam keywords in the content, still yields the
whitelist result. -/
theorem claim_C1_witness :
    ([ "example.com".toList ] : List Str).any
        (fun d => domainMatches ("www.example.com".toList) d) = true ∧
    calculateHeuristicScore ("http://www.example.com".toList)
        ("urgent bvn free-scholarship".toList) ("www.example.com".toList)
        [ "example.com".toList ] [ "www.example.com".toList ] =
      { score := 0, status := Status.safe, issues := ["Domain is whitelisted"] } :=
  ⟨by decide,
   claim_C1_whitelist_short_circuit _ _ _ _ _ (by decide)⟩

/-- C2: the classifier maps every score to exactly one status with the fixed
boundaries `score >= 70` danger, `40 <= score < 70` warning, `score < 40`
safe; in particular 70 is danger, 69 and 40 are warning, 39 is safe. -/
theorem claim_C2_classifier_thresholds :
    (∀ score : Nat,
      (statusOf score = Status.danger ↔ 70 ≤ score) ∧
      (statusOf score = Status.warning ↔ 40 ≤ score ∧ score < 70) ∧
      (statusOf score = Status.safe ↔ score < 40)) ∧
    statusOf 70 = Status.danger ∧ statusOf 69 = Status.warning ∧
    statusOf 40 = Status.warning ∧ statusOf 39 = Status.safe := by
  refine ⟨fun score => ?_, by decide, by decide, by decide, by decide⟩
  unfold statusOf
  refine ⟨?_, ?_, ?_⟩ <;> split_ifs <;> simp <;> omega

/-- C3: a blacklisted, non-whitelisted domain with no other signal (HTTPS
url, no suspicious TLD, no shortener substring, no keyword or generic
occurrence) scores at least the blacklistHit weight 70 and classifies as
danger. -/
theorem claim_C3_blacklist_hit_danger (url content domain : Str)
    (whitelist blacklist : List Str)
    (hHttps : jsStartsWith url ("https://".toList) = true)
    (hTld : SUSPICIOUS_TLDS.find? (fun tld => jsEndsWith domain tld) = none)
    (hShort : URL_SHORTENERS.any (fun shortener => jsIncludes domain shortener) = false)
    (hBl : blacklist.any (fun d => domainMatches domain d) = true)
    (hWl : whitelist.any (fun d => domainMatches domain d) = false)
    (hKw : allScanKeywords.all
        (fun kw => !(kwPred (jsToLower content) (jsToLower url) kw)) = true) :
    70 ≤ (calculateHeuristicScore url content domain whitelist blacklist).score ∧
    (calculateHeuristicScore url content domain whitelist blacklist).status =
      Status.danger := by
  simp only [List.all_eq_true, Bool.not_eq_true'] at hKw
  have hbase : baseChecks url domain blacklist =
      { score := 70, issues := ["Domain is blacklisted"] } := by
    unfold baseChecks blacklistCheck shortenerCheck tldCheck httpsCheck initialScanState
    rw [hTld, hHttps, hShort, hBl]
    simp [RULE_WEIGHTS]
  have hsum : (NIGERIAN_SCAM_PATTERNS.map (fun e =>
      (e.2.filter (kwPred (jsToLower content) (jsToLower url))).length *
        RULE_WEIGHTS.keyword)).sum = 0 := by
    apply List.sum_eq_zero
    intro x hx
    rcases List.mem_map.mp hx with ⟨e, he, rfl⟩
    have : e.2.filter (kwPred (jsToLower content) (jsToLower url)) = [] := by
      apply List.filter_eq_nil_iff.mpr
      intro kw hkw
      have : kw ∈ allScanKeywords :=
        List.mem_append.mpr (Or.inl (List.mem_flatMap.mpr ⟨e, he, hkw⟩))
      simp [hKw kw this]
    rw [this]
    rfl
  have hgen : (SUSPICIOUS_PATTERNS.filter
      (kwPred (jsToLower content) (jsToLower url))).length = 0 := by
    have : SUSPICIOUS_PATTERNS.filter (kwPred (jsToLower content) (jsToLower url)) = [] := by
      apply List.filter_eq_nil_iff.mpr
      intro kw hkw
      have : kw ∈ allScanKeywords := List.mem_append.mpr (Or.inr hkw)
      simp [hKw kw this]
    rw [this]
    rfl
  have hscore : (keywordChecks url content (baseChecks url domain blacklist)).score = 70 := by
    rw [keywordChecks_score, hbase, hsum, hgen]
  have hcalc : calculateHeuristicScore url content domain whitelist blacklist =
      finishScan (keywordChecks url content (baseChecks url domain blacklist)) := by
    simp [calculateHeuristicScore, hWl]
  rw [hcalc]
  unfold finishScan
  rw [hscore]
  exact ⟨Nat.le_refl 70, rfl⟩

/-- Witness for C3: the blacklisted domain `scam.example` over HTTPS with
empty content fires no other check and classifies as danger. -/
theorem claim_C3_witness :
    jsStartsWith ("https://scam.example/".toList) ("https://".toList) = true ∧
    70 ≤ (calculateHeuristicScore ("https://scam.example/".toList) ("".toList)
        ("scam.example".toList) [] [ "scam.example".toList ]).score ∧
    (calculateHeuristicScore ("https://scam.example/".toList) ("".toList)
        ("scam.example".toList) [] [ "scam.example".toList ]).status = Status.danger :=
  ⟨by decide,
   claim_C3_blacklist_hit_danger _ _ _ _ _ (by decide) (by decide) (by decide)
     (by decide) (by decide) (by decide)⟩

/-- C5: `domainMatches` is reflexive for every domain string; matching is
insensitive to any difference that `cleanDomain` normalization (strip
optional `http(s)://` and leading `www.`, lowercase) removes, i.e. the result
only depends on the cleaned forms of both inputs; and in particular
`WWW.Example.com` matches the entry `example.com`. -/
theorem claim_C5_matcher_reflexive_insensitive :
    (∀ d : Str, domainMatches d d = true) ∧
    (∀ d p d' p' : Str, cleanDomain d = cleanDomain d' → cleanDomain p = cleanDomain p' →
      domainMatches d p = domainMatches d' p') ∧
    domainMatches ("WWW.Example.com".toList) ("example.com".toList) = true := by
  refine ⟨fun d => ?_, fun d p d' p' h1 h2 => ?_, by decide⟩
  · simp [domainMatches]
  · simp only [domainMatches, h1, h2]

/-- Witness for C5: `http://www.Example.com` and `EXAMPLE.com` normalize to
the same cleaned domain, so they match the entry `example.com` identically. -/
theorem claim_C5_witness :
    cleanDomain ("http://www.Example.com".toList) = cleanDomain ("EXAMPLE.com".toList) ∧
    domainMatches ("http://www.Example.com".toList) ("example.com".toList) =
      domainMatches ("EXAMPLE.com".toList) ("example.com".toList) :=
  ⟨by decide,
   claim_C5_matcher_reflexive_insensitive.2.1 _ _ _ _ (by decide) (by decide)⟩

/-- C6: for a list entry whose cleaned form begins with `*.`, `domainMatches`
holds exactly when the cleaned candidate equals the entry's base (the entry
minus the `*.`) or ends with `"." ++ base`; with the three concrete
instances of the claim. -/
theorem claim_C6_wildcard_matching :
    (∀ currentDomain listDomain : Str,
      jsStartsWith (cleanDomain listDomain) ("*.".toList) = true →
      (domainMatches currentDomain listDomain = true ↔
        (cleanDomain currentDomain = (cleanDomain listDomain).drop 2 ∨
         jsEndsWith (cleanDomain currentDomain)
           ('.' :: (cleanDomain listDomain).drop 2) = true))) ∧
    domainMatches ("a.b.example.com".toList) ("*.example.com".toList) = true ∧
    domainMatches ("example.com".toList) ("*.example.com".toList) = true ∧
    domainMatches ("notexample.com".toList) ("*.example.com".toList) = false := by
  refine ⟨fun c p hw => ?_, by decide, by decide, by decide⟩
  have hp : ("*.".toList) <+: cleanDomain p := by
    unfold jsStartsWith at hw
    exact of_decide_eq_true hw
  obtain ⟨t, ht⟩ := hp
  have hcl : cleanDomain p = '*' :: '.' :: t := by
    rw [← ht]
    rfl
  have hdrop : (cleanDomain p).drop 2 = t := by
    rw [hcl]
    rfl
  constructor
  · intro hm
    simp only [domainMatches] at hm
    rw [hdrop]
    rw [hcl] at hm
    split at hm
    case isTrue h1 =>
      right
      have hcc : cleanDomain c = '*' :: '.' :: t := beq_iff_eq.mp h1
      rw [hcc]
      unfold jsEndsWith
      exact decide_eq_true (List.suffix_cons '*' ('.' :: t))
    case isFalse h1 =>
      split at hm
      case isTrue h2 =>
        right
        unfold jsEndsWith at h2 ⊢
        apply decide_eq_true
        have hsub : ('.' :: t) <:+ ('.' :: '*' :: '.' :: t) :=
          (List.suffix_cons '*' ('.' :: t)).trans (List.suffix_cons '.' _)
        exact hsub.trans (of_decide_eq_true h2)
      case isFalse h2 =>
        split at hm
        case isTrue h3 =>
          rw [Bool.or_eq_true] at hm
          rcases hm with h | h
          · right
            simpa using h
          · left
            simpa using beq_iff_eq.mp h
        case isFalse h3 =>
          exact absurd hm Bool.false_ne_true
  · intro hr
    rw [hdrop] at hr
    simp only [domainMatches]
    rw [hcl]
    split
    case isTrue h1 => rfl
    case isFalse h1 =>
      split
      case isTrue h2 => rfl
      case isFalse h2 =>
        split
        case isTrue h3 =>
          rw [Bool.or_eq_true]
          rcases hr with h | h
          · right
            simpa using beq_iff_eq.mpr h
          · left
            simpa using h
        case isFalse h3 =>
          refine absurd ?_ h3
          unfold jsStartsWith
          exact decide_eq_true ⟨t, rfl⟩

/-- Witness for C6: the wildcard characterization applied to the concrete
candidate `a.b.example.com` and entry `*.example.com`. -/
theorem claim_C6_witness :
    jsStartsWith (cleanDomain ("*.example.com".toList)) ("*.".toList) = true ∧
    (domainMatches ("a.b.example.com".toList) ("*.example.com".toList) = true ↔
      (cleanDomain ("a.b.example.com".toList) =
          (cleanDomain ("*.example.com".toList)).drop 2 ∨
       jsEndsWith (cleanDomain ("a.b.example.com".toList))
         ('.' :: (cleanDomain ("*.example.com".toList)).drop 2) = true)) :=
  ⟨by decide, claim_C6_wildcard_matching.1 _ _ (by decide)⟩

/-- C4: the try/catch of `calculateHeuristicScore` never propagates a throw:
if the steps before some analysis step complete normally and that step
throws, the function still returns a `ScanResult` carrying the score
accumulated up to the throw, with "Error during analysis" appended to the
issues, and the steps after the throwing one are skipped. -/
theorem claim_C4_catch_degrades (pre post : List Step) (step : Step)
    (st st' : ScanState)
    (hpre : runTry pre initialScanState = StepOut.ok st)
    (hthrow : step st = StepOut.err st') :
    runScanBody (pre ++ step :: post) =
      { score := st'.score, status := statusOf st'.score,
        issues := st'.issues ++ ["Error during analysis"] } := by
  have hrun : runTry (pre ++ step :: post) initialScanState = StepOut.err st' := by
    rw [runTry_append, hpre]
    show runTry (step :: post) st = StepOut.err st'
    rw [runTry, hthrow]
  unfold runScanBody
  rw [hrun]
  rfl

/-- A model analysis step that throws immediately, leaving the accumulated
state untouched. -/
def throwingStep : Step := fun st => StepOut.err st

/-- Witness for C4: a body consisting of a single throwing step yields the
degraded result with the pre-failure score 0. -/
theorem claim_C4_witness :
    runTry [] initialScanState = StepOut.ok initialScanState ∧
    throwingStep initialScanState = StepOut.err initialScanState ∧
    runScanBody ([] ++ throwingStep :: []) =
      { score := 0, status := Status.safe, issues := ["Error during analysis"] } :=
  ⟨rfl, rfl,
   claim_C4_catch_degrades [] [] throwingStep initialScanState initialScanState rfl rfl⟩

/-- C9: scoring is monotone in keyword matches — if two inputs agree on the
HTTPS check and on the scanned domain, and every category keyword or generic
suspicious pattern occurring (in lowercased content or URL) for the first
input also occurs for the second, the returned score does not decrease. -/
theorem claim_C9_keyword_monotone (url₁ content₁ url₂ content₂ domain : Str)
    (whitelist blacklist : List Str)
    (hHttps : jsStartsWith url₁ ("https://".toList) = jsStartsWith url₂ ("https://".toList))
    (hMono : ∀ kw ∈ allScanKeywords,
      kwPred (jsToLower content₁) (jsToLower url₁) kw = true →
      kwPred (jsToLower content₂) (jsToLower url₂) kw = true) :
    (calculateHeuristicScore url₁ content₁ domain whitelist blacklist).score ≤
      (calculateHeuristicScore url₂ content₂ domain whitelist blacklist).score := by
  unfold calculateHeuristicScore
  split
  · exact Nat.le_refl _
  · have hbase : baseChecks url₁ domain blacklist = baseChecks url₂ domain blacklist := by
      unfold baseChecks httpsCheck
      rw [hHttps]
    unfold finishScan
    dsimp only
    rw [keywordChecks_score, keywordChecks_score, hbase]
    have hsum : (NIGERIAN_SCAM_PATTERNS.map (fun e =>
        (e.2.filter (kwPred (jsToLower content₁) (jsToLower url₁))).length *
          RULE_WEIGHTS.keyword)).sum ≤
        (NIGERIAN_SCAM_PATTERNS.map (fun e =>
        (e.2.filter (kwPred (jsToLower content₂) (jsToLower url₂))).length *
          RULE_WEIGHTS.keyword)).sum := by
      apply List.sum_le_sum
      intro e he
      apply Nat.mul_le_mul_right
      rw [← List.countP_eq_length_filter, ← List.countP_eq_length_filter]
      apply List.countP_mono_left
      intro kw hkw
      exact hMono kw (List.mem_append.mpr (Or.inl (List.mem_flatMap.mpr ⟨e, he, hkw⟩)))
    have hgen : (SUSPICIOUS_PATTERNS.filter
        (kwPred (jsToLower content₁) (jsToLower url₁))).length ≤
        (SUSPICIOUS_PATTERNS.filter
        (kwPred (jsToLower content₂) (jsToLower url₂))).length := by
      rw [← List.countP_eq_length_filter, ← List.countP_eq_length_filter]
      apply List.countP_mono_left
      intro kw hkw
      exact hMono kw (List.mem_append.mpr (Or.inr hkw))
    omega

/-- Witness for C9: adding the keyword "urgent" to empty content (same URL
and domain) does not decrease the score. -/
theorem claim_C9_witness :
    jsStartsWith ("http://x.example/".toList) ("https://".toList) =
      jsStartsWith ("http://x.example/".toList) ("https://".toList) ∧
    (∀ kw ∈ allScanKeywords,
      kwPred (jsToLower ("".toList)) (jsToLower ("http://x.example/".toList)) kw = true →
      kwPred (jsToLower ("urgent".toList)) (jsToLower ("http://x.example/".toList)) kw = true) ∧
    (calculateHeuristicScore ("http://x.example/".toList) ("".toList)
        ("x.example".toList) [] []).score ≤
      (calculateHeuristicScore ("http://x.example/".toList) ("urgent".toList)
        ("x.example".toList) [] []).score :=
  ⟨rfl, by decide,
   claim_C9_keyword_monotone _ _ _ _ _ _ _ rfl (by decide)⟩

/-- C10: every `ScanResult` the scorer can return has its status consistent
with its own score under the fixed thresholds — on the whitelist early-return
path and the normal path (first conjunct, the complete function), and on the
error-recovery path of the try/catch skeleton (second conjunct). -/
theorem claim_C10_status_score_invariant :
    (∀ (url content domain : Str) (whitelist blacklist : List Str),
      statusMatchesScore (calculateHeuristicScore url content domain whitelist blacklist)) ∧
    (∀ (steps : List Step) (st : ScanState),
      runTry steps initialScanState = StepOut.err st →
      statusMatchesScore (runScanBody steps)) := by
  constructor
  · intro url content domain whitelist blacklist
    unfold calculateHeuristicScore
    split
    · exact (by decide : statusMatchesScore whitelistResult)
    · exact statusMatchesScore_finishScan _
  · intro steps st h
    unfold runScanBody
    rw [h]
    exact statusMatchesScore_finishScan _

/-- Witness for C10: the invariant evaluated on a whitelisted scan and on a
throwing body. -/
theorem claim_C10_witness :
    runTry [throwingStep] initialScanState = StepOut.err initialScanState ∧
    statusMatchesScore (runScanBody [throwingStep]) ∧
    statusMatchesScore (calculateHeuristicScore ("https://a.com/".toList) ("".toList)
      ("a.com".toList) [ "a.com".toList ] []) :=
  ⟨rfl, claim_C10_status_score_invariant.2 [throwingStep] initialScanState rfl,
   claim_C10_status_score_invariant.1 _ _ _ _ _⟩

theorem entryRules_length (domain : Str) (index : Nat) (whitelist : List Str) :
    (entryRules domain index whitelist).length =
      if whitelist.any (fun d => domainMatches domain d) then 0
      else if jsStartsWith (cleanDomain domain) ("*.".toList) then 1 else 2 := by
  simp only [entryRules]
  split_ifs <;> rfl

theorem compileRulesFrom_length (whitelist : List Str) :
    ∀ (blacklist : List Str) (index : Nat),
      (compileRulesFrom blacklist whitelist index).length =
        (blacklist.map (fun d =>
          if whitelist.any (fun w => domainMatches d w) then 0
          else if jsStartsWith (cleanDomain d) ("*.".toList) then 1 else 2)).sum
  | [], _ => rfl
  | d :: rest, index => by
    show (entryRules d index whitelist ++ compileRulesFrom rest whitelist (index + 1)).length = _
    rw [List.length_append, entryRules_length,
      compileRulesFrom_length whitelist rest (index + 1)]
    simp

/-- C7: the compiler emits, per blacklist entry not matched by any whitelist
entry, one rule for the bare/wildcard form plus a `www.` variant unless the
entry is a wildcard, and nothing for whitelisted entries (first conjunct
counts the emitted rules per entry); concretely `["scam.example"]` with empty
whitelist yields exactly the bare and `www.` rules, and with
`["scam.example"]` whitelisted yields no rules. -/
theorem claim_C7_compiler_rules :
    (∀ (blacklist whitelist : List Str),
      (updateBlockingRules true blacklist whitelist).length =
        (blacklist.map (fun d =>
          if whitelist.any (fun w => domainMatches d w) then 0
          else if jsStartsWith (cleanDomain d) ("*.".toList) then 1 else 2)).sum) ∧
    updateBlockingRules true [ "scam.example".toList ] [] =
      [ { id := 1, priority := 1,
          redirectPath := "/blocked.html?url=scam.example".toList,
          urlFilter := "*://scam.example/*".toList,
          resourceTypes := ["main_frame"] },
        { id := 1000, priority := 1,
          redirectPath := "/blocked.html?url=scam.example".toList,
          urlFilter := "*://www.scam.example/*".toList,
          resourceTypes := ["main_frame"] } ] ∧
    updateBlockingRules true [ "scam.example".toList ] [ "scam.example".toList ] = [] := by
  refine ⟨fun blacklist whitelist => ?_, by decide, by decide⟩
  cases blacklist with
  | nil => rfl
  | cons d rest =>
    show (compileRulesFrom (d :: rest) whitelist 0).length = _
    exact compileRulesFrom_length whitelist (d :: rest) 0

theorem entryRules_id_mem (domain : Str) (index : Nat) (whitelist : List Str)
    (r : BlockRule) (hr : r ∈ entryRules domain index whitelist) :
    r.id = index + 1 ∨ r.id = index + 1000 := by
  simp only [entryRules] at hr
  split_ifs at hr
  · exact absurd hr (List.not_mem_nil r)
  · rw [List.mem_singleton] at hr
    subst hr
    left
    rfl
  · rcases List.mem_cons.mp hr with h | h
    · subst h
      left
      rfl
    · rw [List.mem_singleton] at h
      subst h
      right
      rfl

theorem compileRulesFrom_id_mem (whitelist : List Str) :
    ∀ (blacklist : List Str) (index : Nat) (r : BlockRule),
      r ∈ compileRulesFrom blacklist whitelist index →
      ∃ k, k < blacklist.length ∧ (r.id = index + k + 1 ∨ r.id = index + k + 1000)
  | [], _, r => by
    intro h
    exact absurd h (List.not_mem_nil r)
  | d :: rest, index, r => by
    intro h
    rcases List.mem_append.mp h with h | h
    · have hid := entryRules_id_mem d index whitelist r h
      exact ⟨0, by simp, by omega⟩
    · obtain ⟨k, hk, hid⟩ := compileRulesFrom_id_mem whitelist rest (index + 1) r h
      exact ⟨k + 1, by simpa using Nat.succ_lt_succ hk, by omega⟩

theorem compileRulesFrom_ids_nodup (whitelist : List Str) :
    ∀ (blacklist : List Str) (index : Nat), blacklist.length ≤ 999 →
      ((compileRulesFrom blacklist whitelist index).map (fun r => r.id)).Nodup
  | [], _, _ => by simp [compileRulesFrom]
  | d :: rest, index, hlen => by
    have hlen' : rest.length ≤ 998 := by
      rw [List.length_cons] at hlen
      omega
    show ((entryRules d index whitelist ++
      compileRulesFrom rest whitelist (index + 1)).map (fun r => r.id)).Nodup
    rw [List.map_append]
    apply List.Nodup.append
    · simp only [entryRules]
      split_ifs <;> simp
    · exact compileRulesFrom_ids_nodup whitelist rest (index + 1) (by omega)
    · intro a ha ha'
      rcases List.mem_map.mp ha with ⟨r, hr, rfl⟩
      rcases List.mem_map.mp ha' with ⟨r', hr', hid⟩
      have h1 := entryRules_id_mem d index whitelist r hr
      obtain ⟨k, hk, h2⟩ := compileRulesFrom_id_mem whitelist rest (index + 1) r' hr'
      omega

set_option maxRecDepth 40000 in
/-- Counterexample for C8: with 1000 blacklist entries the emitted rule
identifiers are not pairwise distinct — the `www.` rule of entry 0 and the
main rule of entry 999 both receive id 1000. -/
theorem claim_C8_counterexample :
    ¬ (((updateBlockingRules true (List.replicate 1000 (['a'] : Str)) []).map
        (fun r => r.id)).Nodup) := by
  intro h
  have hcount : ((updateBlockingRules true (List.replicate 1000 (['a'] : Str)) []).map
      (fun r => r.id)).count 1000 = 2 := by decide
  have hle := List.nodup_iff_count_le_one.mp h 1000
  omega

/-- C8 (amended): rule identifiers are derived deterministically from each
entry's position in the blacklist (`index + 1` for the main rule,
`index + 1000` for the `www.` variant, second conjunct), and they are
pairwise distinct provided the blacklist holds at most 999 entries (first
conjunct); with 1000 or more entries the two id families collide. -/
theorem claim_C8_amended_rule_ids :
    (∀ (blacklist whitelist : List Str), blacklist.length ≤ 999 →
      ((updateBlockingRules true blacklist whitelist).map (fun r => r.id)).Nodup) ∧
    (∀ (blacklist whitelist : List Str) (r : BlockRule),
      r ∈ updateBlockingRules true blacklist whitelist →
      ∃ i, i < blacklist.length ∧ (r.id = i + 1 ∨ r.id = i + 1000)) := by
  constructor
  · intro blacklist whitelist hlen
    cases blacklist with
    | nil => simp [updateBlockingRules]
    | cons d rest =>
      show ((compileRulesFrom (d :: rest) whitelist 0).map (fun r => r.id)).Nodup
      exact compileRulesFrom_ids_nodup whitelist (d :: rest) 0 hlen
  · intro blacklist whitelist r hr
    cases blacklist with
    | nil => simp [updateBlockingRules] at hr
    | cons d rest =>
      have hr' : r ∈ compileRulesFrom (d :: rest) whitelist 0 := hr
      obtain ⟨k, hk, hid⟩ := compileRulesFrom_id_mem whitelist (d :: rest) 0 r hr'
      exact ⟨k, hk, by omega⟩

/-- Witness for the amended C8: the single-entry compilation has distinct
ids, and its first rule's id is position-derived. -/
theorem claim_C8_witness :
    (([ "scam.example".toList ] : List Str).length ≤ 999 ∧
     ((updateBlockingRules true [ "scam.example".toList ] []).map (fun r => r.id)).Nodup) ∧
    (({ id := 1, priority := 1,
        redirectPath := "/blocked.html?url=scam.example".toList,
        urlFilter := "*://scam.example/*".toList,
        resourceTypes := ["main_frame"] } : BlockRule) ∈
          updateBlockingRules true [ "scam.example".toList ] [] ∧
     ∃ i, i < ([ "scam.example".toList ] : List Str).length ∧
       (({ id := 1, priority := 1,
           redirectPath := "/blocked.html?url=scam.example".toList,
           urlFilter := "*://scam.example/*".toList,
           resourceTypes := ["main_frame"] } : BlockRule).id = i + 1 ∨
        ({ id := 1, priority := 1,
           redirectPath := "/blocked.html?url=scam.example".toList,
           urlFilter := "*://scam.example/*".toList,
           resourceTypes := ["main_frame"] } : BlockRule).id = i + 1000)) :=
  ⟨⟨by decide, claim_C8_amended_rule_ids.1 [ "scam.example".toList ] [] (by decide)⟩,
   by decide,
   claim_C8_amended_rule_ids.2 [ "scam.example".toList ] [] _ (by decide)⟩
